import Mathlib

/-!
Shallow embedding of the Multi-Signal Text Classification & Crisis-Scoring
Engine of the mental-health chatbot repository
(src/supabase/functions/chat/enhanced_edge_function.ts), together with
theorems settling the specification claims about it.

JavaScript numbers are modelled by the rationals; machine strings by Lean
strings (compared and searched via explicit character lists, matching the
semantics of String.prototype.includes and String.prototype.split).
-/

/-- Sentiment labels produced by the three signal scorers and the combiner
(the source uses the string literals positive, negative, neutral). -/
inductive Sent where
  | positive
  | negative
  | neutral
deriving DecidableEq, BEq

/-- Rendering of a sentiment label back to the string the source pushes into
the sentiments array of analyzeConversationHistory. -/
def sentToString : Sent → String
  | Sent.positive => "positive"
  | Sent.negative => "negative"
  | Sent.neutral => "neutral"

/-- Character-list test that pat occurs at the head of s (helper for the
substring search underlying String.prototype.includes). -/
def startsWithChars : List Char → List Char → Bool
  | _, [] => true
  | [], _ :: _ => false
  | c :: cs, p :: ps => c == p && startsWithChars cs ps

/-- Substring occurrence test on character lists: hasSubstr s pat is true
exactly when pat occurs contiguously somewhere in s. -/
def hasSubstr : List Char → List Char → Bool
  | [], pat => pat.isEmpty
  | c :: cs, pat => startsWithChars (c :: cs) pat || hasSubstr cs pat

/-- Embedding of JavaScript text.includes(sub). -/
def includes (s sub : String) : Bool := hasSubstr s.data sub.data

/-- Embedding of JavaScript text.split(" "): splits on every single space
character; the empty string yields a one-element list holding the empty
string, exactly as in JavaScript. -/
def splitSp : List Char → List (List Char)
  | [] => [[]]
  | c :: cs =>
    if c == ' ' then [] :: splitSp cs
    else
      match splitSp cs with
      | [] => [[c]]
      | t :: ts => (c :: t) :: ts

/-- String-level wrapper of splitSp. -/
def jsSplitSpace (s : String) : List String := (splitSp s.data).map (fun l => String.mk l)

/-- Characters matched by the JavaScript regular-expression class backslash-s
(whitespace), used by cleanText via the replace(.., " ") collapse and by
trim. -/
def jsSpaceChars : List Char :=
  [' ', '\t', '\n', '\r', '\x0b', '\x0c', '\u00A0', '\u1680',
   '\u2000', '\u2001', '\u2002', '\u2003', '\u2004', '\u2005', '\u2006',
   '\u2007', '\u2008', '\u2009', '\u200A', '\u2028', '\u2029', '\u202F',
   '\u205F', '\u3000', '\uFEFF']

/-- Whitespace test matching the JavaScript backslash-s class. -/
def isJsSpace (c : Char) : Bool := jsSpaceChars.contains c

/-- Characters kept by the replace([^a-zA-Z backslash-s], "") step of
cleanText: ASCII letters and whitespace. -/
def keepChar (c : Char) : Bool := c.isAlpha || isJsSpace c

/-- Embedding of the replace(backslash-s+, " ") step: every maximal run of
whitespace characters becomes one single space. The Boolean flag records
whether the previous character belonged to a whitespace run. -/
def collapseWsAux : Bool → List Char → List Char
  | _, [] => []
  | prevWs, c :: cs =>
    if isJsSpace c then
      if prevWs then collapseWsAux true cs
      else ' ' :: collapseWsAux true cs
    else c :: collapseWsAux false cs

/-- Embedding of String.prototype.trim: strip whitespace at both ends. -/
def trimChars (l : List Char) : List Char :=
  ((l.dropWhile isJsSpace).reverse.dropWhile isJsSpace).reverse

/-- Embedding of cleanText: lowercase, delete every character that is not an
ASCII letter or whitespace, collapse whitespace runs to single spaces, trim. -/
def cleanText (text : String) : String :=
  String.mk (trimChars (collapseWsAux false ((text.data.map Char.toLower).filter keepChar)))

/-- Result record of the simplified VADER-like scorer (vaderSentiment). -/
structure VaderResult where
  sentiment : Sent
  compound : ℚ
  positive : Nat
  negative : Nat
deriving DecidableEq

/-- Positive word list of vaderSentiment. -/
def positiveWordsVader : List String :=
  ["good", "great", "wonderful", "excellent", "amazing", "love", "joy", "happy", "blessed"]

/-- Negative word list of vaderSentiment. -/
def negativeWordsVader : List String :=
  ["bad", "terrible", "awful", "hate", "angry", "depressed", "suicidal", "sad", "hopeless"]

/-- Embedding of vaderSentiment: token-exact counts of positive and negative
words, compound score (pos - neg) / max(tokenCount, 1), thresholds at plus
and minus one tenth. -/
def vaderSentiment (text : String) : VaderResult :=
  let words := jsSplitSpace text
  let positiveCount := (words.filter (fun w => positiveWordsVader.contains w)).length
  let negativeCount := (words.filter (fun w => negativeWordsVader.contains w)).length
  let compound : ℚ := ((positiveCount : ℚ) - (negativeCount : ℚ)) / ((max words.length 1 : Nat) : ℚ)
  { sentiment :=
      if compound > 1/10 then Sent.positive
      else if compound < -(1/10) then Sent.negative
      else Sent.neutral
    compound := compound
    positive := positiveCount
    negative := negativeCount }

/-- Result record of keywordSentiment. -/
structure KeywordResult where
  sentiment : Sent
  score : ℚ
deriving DecidableEq

/-- Positive keyword list of keywordSentiment (substring matched). -/
def positiveKeywordsKw : List String :=
  ["happy", "good", "great", "wonderful", "excited", "grateful"]

/-- Negative keyword list of keywordSentiment (substring matched). -/
def negativeKeywordsKw : List String :=
  ["sad", "bad", "terrible", "depressed", "angry", "suicidal"]

/-- Embedding of keywordSentiment: substring counts; neutral with score 0
when no keyword occurs, otherwise ratio (pos - neg) / (pos + neg) with
thresholds at plus and minus three tenths. -/
def keywordSentiment (text : String) : KeywordResult :=
  let positiveScore := (positiveKeywordsKw.filter (fun k => includes text k)).length
  let negativeScore := (negativeKeywordsKw.filter (fun k => includes text k)).length
  let total := positiveScore + negativeScore
  if total = 0 then { sentiment := Sent.neutral, score := 0 }
  else
    let score : ℚ := ((positiveScore : ℚ) - (negativeScore : ℚ)) / (total : ℚ)
    { sentiment :=
        if score > 3/10 then Sent.positive
        else if score < -(3/10) then Sent.negative
        else Sent.neutral
      score := score }

/-- Result record of patternSentiment. -/
structure PatternResult where
  sentiment : Sent
  confidence : ℚ
deriving DecidableEq

/-- Positive regular expressions of patternSentiment. Each source regex is
literal text with a single alternation group, so it matches a string exactly
when one of the expanded alternatives occurs as a substring; each inner list
below is the expansion of one regex. -/
def positivePatterns : List (List String) :=
  [["i feel good", "i feel great", "i feel wonderful", "i feel happy", "i feel blessed"],
   ["i am happy", "i am excited", "i am grateful", "i am content"],
   ["things are good", "things are great", "things are wonderful"]]

/-- Negative regular expressions of patternSentiment, expanded the same way. -/
def negativePatterns : List (List String) :=
  [["i feel sad", "i feel bad", "i feel terrible", "i feel hopeless", "i feel worthless"],
   ["i am sad", "i am depressed", "i am angry", "i am lonely"],
   ["things are bad", "things are terrible", "things are awful"],
   ["i want to die", "i want to kill myself", "i want to end it all"]]

/-- One regex test: true when any alternative occurs in the text. -/
def regexTest (alts : List String) (text : String) : Bool :=
  alts.any (fun a => includes text a)

/-- Embedding of patternSentiment: count matching regexes per polarity;
strict majority wins with confidence wins/(total matches), neutral with
confidence one half on a tie (including zero matches). -/
def patternSentiment (text : String) : PatternResult :=
  let positiveMatches := (positivePatterns.filter (fun p => regexTest p text)).length
  let negativeMatches := (negativePatterns.filter (fun p => regexTest p text)).length
  if positiveMatches > negativeMatches then
    { sentiment := Sent.positive
      confidence := (positiveMatches : ℚ) / ((positiveMatches : ℚ) + (negativeMatches : ℚ)) }
  else if negativeMatches > positiveMatches then
    { sentiment := Sent.negative
      confidence := (negativeMatches : ℚ) / ((positiveMatches : ℚ) + (negativeMatches : ℚ)) }
  else
    { sentiment := Sent.neutral, confidence := 1/2 }

/-- Result record of combineSentiments. -/
structure CombinedSentiment where
  sentiment : Sent
  confidence : ℚ
deriving DecidableEq

/-- Embedding of combineSentiments: tally votes per label, take the maximal
count, return the first label (checking positive, then negative, then
neutral) attaining it, with confidence maxCount / number of scorers. -/
def combineSentiments (scores : List Sent) : CombinedSentiment :=
  let positive := scores.count Sent.positive
  let negative := scores.count Sent.negative
  let neutral := scores.count Sent.neutral
  let maxCount := max positive (max negative neutral)
  if positive = maxCount then { sentiment := Sent.positive, confidence := (maxCount : ℚ) / (scores.length : ℚ) }
  else if negative = maxCount then { sentiment := Sent.negative, confidence := (maxCount : ℚ) / (scores.length : ℚ) }
  else { sentiment := Sent.neutral, confidence := (maxCount : ℚ) / (scores.length : ℚ) }

/-- Emotion lexicon of the analyzer, in declared enumeration order. -/
def emotionKeywords : List (String × List String) :=
  [("anxiety", ["anxious", "worried", "nervous", "scared", "fear", "panic", "stress", "overwhelmed"]),
   ("depression", ["sad", "depressed", "hopeless", "worthless", "empty", "tired", "exhausted", "down"]),
   ("anger", ["angry", "mad", "furious", "irritated", "frustrated", "hate", "rage"]),
   ("happiness", ["happy", "joy", "excited", "pleased", "content", "grateful", "blessed"]),
   ("loneliness", ["alone", "lonely", "isolated", "abandoned", "left out", "no one"]),
   ("suicidal", ["suicide", "kill myself", "end it all", "want to die", "better off dead", "no point"])]

/-- Intent lexicon of the analyzer, in declared enumeration order. -/
def intentKeywords : List (String × List String) :=
  [("help_request", ["help", "support", "need", "struggling", "crisis"]),
   ("greeting", ["hello", "hi", "how are you", "feeling", "doing"]),
   ("gratitude", ["thank", "thanks", "appreciate", "grateful"]),
   ("meditation", ["meditate", "breathing", "calm", "relax", "mindfulness"]),
   ("sleep", ["sleep", "insomnia", "tired", "rest", "bed"]),
   ("general", ["general", "talk", "chat", "conversation"])]

/-- Keyword-match count per lexicon category: for each category, the number
of its keywords occurring as substrings of the text (the score the source
computes per entry of emotionKeywords and intentKeywords). -/
def categoryScores (lex : List (String × List String)) (text : String) : List (String × Nat) :=
  lex.map (fun p => (p.1, (p.2.filter (fun k => includes text k)).length))

/-- Embedding of the JavaScript reduce((a, b) => a.score > b.score ? a : b)
over a nonempty entry list, started at its head. On a tie the accumulator is
replaced, so the last entry attaining the maximal score is kept. -/
def pickFold (x : String × Nat) (xs : List (String × Nat)) : String × Nat :=
  xs.foldl (fun a b => if a.2 > b.2 then a else b) x

/-- Shared body of detectEmotion and detectIntent: keep the categories with
positive score (in lexicon order, as JavaScript object insertion order
does), return the default when none remains, otherwise reduce as the source
does. -/
def pickBest (scores : List (String × Nat)) (dflt : String) : String :=
  match scores.filter (fun p => decide (0 < p.2)) with
  | [] => dflt
  | x :: xs => (pickFold x xs).1

/-- Embedding of detectEmotion. -/
def detectEmotion (text : String) : String :=
  pickBest (categoryScores emotionKeywords text) "neutral"

/-- Embedding of detectIntent. -/
def detectIntent (text : String) : String :=
  pickBest (categoryScores intentKeywords text) "general"

/-- Embedding of calculateConfidence: scale the combined sentiment
confidence to 0-100 and add the emotion and intent boosts, capped at 100. -/
def calculateConfidence (sentiment : CombinedSentiment) (emotion intent : String) : ℚ :=
  let confidence := sentiment.confidence * 100
  let confidence := if emotion = "suicidal" then confidence + 20 else confidence
  let confidence := if emotion = "depression" ∨ emotion = "anxiety" then confidence + 10 else confidence
  let confidence := if intent = "help_request" then confidence + 15 else confidence
  let confidence := if intent = "meditation" ∨ intent = "sleep" then confidence + 10 else confidence
  min confidence 100

/-- Classification record returned by analyzeSentiment (the scores field of
the source result only replays the scorer outputs and is dropped here; every
consumer reads these four fields). -/
structure Classification where
  sentiment : Sent
  emotion : String
  intent : String
  confidence : ℚ
deriving DecidableEq

/-- Embedding of analyzeSentiment, the Classify operation of the spec. -/
def analyzeSentiment (text : String) : Classification :=
  let cleanedText := cleanText text
  let vaderScore := vaderSentiment cleanedText
  let keywordScore := keywordSentiment cleanedText
  let patternScore := patternSentiment cleanedText
  let combinedSentiment :=
    combineSentiments [vaderScore.sentiment, keywordScore.sentiment, patternScore.sentiment]
  let emotion := detectEmotion cleanedText
  let intent := detectIntent cleanedText
  let confidence := calculateConfidence combinedSentiment emotion intent
  { sentiment := combinedSentiment.sentiment
    emotion := emotion
    intent := intent
    confidence := confidence }

/-- Embedding of detectCrisisLevel: successive additive adjustments to a
level starting at 0 (each conditional increment level plus-equals k of the
source is rendered as adding k when the condition holds and 0 otherwise),
then the clamp max(0, min(level, 5)). -/
def detectCrisisLevel (analysis : Classification) : Int :=
  let level : Int := 0
  let level := level + (if analysis.sentiment = Sent.negative then 1 else 0)
  let level := level - (if analysis.sentiment = Sent.positive then 1 else 0)
  let level := level +
    (if analysis.emotion = "suicidal" then 5
     else if analysis.emotion = "depression" then 3
     else if analysis.emotion = "anxiety" then 2
     else if analysis.emotion = "anger" then 2
     else if analysis.emotion = "loneliness" then 1
     else 0)
  let level := level + (if analysis.confidence > 80 then 1 else 0)
  let level := level + (if analysis.confidence > 90 then 1 else 0)
  let level := level + (if analysis.intent = "help_request" then 1 else 0)
  max 0 (min level 5)

/-- Flag type derivation used by the request handler when it inserts a
crisis flag: suicidal at level at least 5, crisis below. -/
def flagType (crisisLevel : Int) : String :=
  if crisisLevel ≥ 5 then "suicidal" else "crisis"

/-- Message rows as read by analyzeConversationHistory. -/
structure Message where
  sender_type : String
  content : String
deriving DecidableEq

/-- Trend record built by analyzeConversationHistory. Distributions are
association lists in first-insertion order, mirroring JavaScript object key
order. -/
structure ConversationTrend where
  sentiment_distribution : List (String × Nat)
  emotion_distribution : List (String × Nat)
  dominant_sentiment : String
  dominant_emotion : String
  message_count : Nat
deriving DecidableEq

/-- Possible outcomes of a call to analyzeConversationHistory: the explicit
null the source returns on an empty input, a trend record, or a thrown
JavaScript TypeError (reduce of an empty array with no initial value). -/
inductive AggOutcome where
  | nullResult
  | trend (t : ConversationTrend)
  | jsError
deriving DecidableEq

/-- One step of the countOccurrences reduce: bump an existing key or append
a new one with count 1. -/
def bumpCount (acc : List (String × Nat)) (val : String) : List (String × Nat) :=
  if acc.any (fun p => p.1 == val) then
    acc.map (fun p => if p.1 == val then (p.1, p.2 + 1) else p)
  else acc ++ [(val, 1)]

/-- Embedding of countOccurrences. -/
def countOccurrences (arr : List String) : List (String × Nat) :=
  arr.foldl bumpCount []

/-- Embedding of getDominant: Object.entries(counts).reduce((a, b) =>
counts[a[0]] > counts[b[0]] ? a : b)[0]. Since each entry carries its own
count, the lookups equal the entry counts. On an empty object the reduce has
no initial value and throws, modelled by none. -/
def getDominant (counts : List (String × Nat)) : Option String :=
  match counts with
  | [] => none
  | x :: xs => some (pickFold x xs).1

/-- Embedding of analyzeConversationHistory, the Aggregate operation of the
spec. The source runs analyzeSentiment once per user message and pushes its
sentiment and its emotion; the two maps below replay that pure computation. -/
def analyzeConversationHistory (messages : List Message) : AggOutcome :=
  if messages.length = 0 then AggOutcome.nullResult
  else
    let userMessages := messages.filter (fun m => m.sender_type == "user")
    let sentiments := userMessages.map (fun m => sentToString (analyzeSentiment m.content).sentiment)
    let emotions := userMessages.map (fun m => (analyzeSentiment m.content).emotion)
    let sentimentCounts := countOccurrences sentiments
    let emotionCounts := countOccurrences emotions
    match getDominant sentimentCounts, getDominant emotionCounts with
    | some ds, some de =>
        AggOutcome.trend
          { sentiment_distribution := sentimentCounts
            emotion_distribution := emotionCounts
            dominant_sentiment := ds
            dominant_emotion := de
            message_count := messages.length }
    | _, _ => AggOutcome.jsError

/-- Maximal score among a list of category entries (0 on the empty list). -/
def maxScore (l : List (String × Nat)) : Nat :=
  l.foldr (fun p acc => max p.2 acc) 0

/-- Specification-side selector for the amended tie-break rule: among the
categories with positive score, the one declared last among those attaining
the maximal score; the default when no category has positive score. -/
def lastMaxCategory (scores : List (String × Nat)) (dflt : String) : String :=
  let pos := scores.filter (fun p => decide (0 < p.2))
  if pos.isEmpty then dflt
  else
    match (pos.filter (fun p => p.2 == maxScore pos)).getLast? with
    | some p => p.1
    | none => dflt


/-- C1: for the input I want to kill myself, the classifier detects emotion
suicidal, the crisis scorer returns level 5, and the derived flag type is
suicidal. -/
theorem classify_kill_myself_crisis :
    (analyzeSentiment "I want to kill myself").emotion = "suicidal" ∧
    detectCrisisLevel (analyzeSentiment "I want to kill myself") = 5 ∧
    flagType (detectCrisisLevel (analyzeSentiment "I want to kill myself")) = "suicidal" := by
  with_unfolding_all decide

/-- C2: detectCrisisLevel equals the clamp to the interval 0..5 of the
additive sum of the rule contributions (sentiment plus or minus 1, the
emotion weights, plus 1 per exceeded confidence threshold, plus 1 for a help
request), and its value always lies in the interval 0..5. -/
theorem detectCrisisLevel_additive_clamp (a : Classification) :
    detectCrisisLevel a =
      max 0 (min ((if a.sentiment = Sent.negative then (1 : Int)
            else if a.sentiment = Sent.positive then -1 else 0) +
          (if a.emotion = "suicidal" then (5 : Int)
            else if a.emotion = "depression" then 3
            else if a.emotion = "anxiety" then 2
            else if a.emotion = "anger" then 2
            else if a.emotion = "loneliness" then 1 else 0) +
          ((if a.confidence > 80 then (1 : Int) else 0) +
            (if a.confidence > 90 then (1 : Int) else 0)) +
          (if a.intent = "help_request" then (1 : Int) else 0)) 5) ∧
    0 ≤ detectCrisisLevel a ∧ detectCrisisLevel a ≤ 5 := by
  obtain ⟨s, e, i, conf⟩ := a
  simp only [detectCrisisLevel]
  refine ⟨?_, le_max_left _ _, max_le (by norm_num) (min_le_right _ _)⟩
  split_ifs <;> first | omega | simp_all

/-- C5: the signal combiner returns a label whose vote count is the maximal
vote count, with confidence equal to that vote count divided by 3, and when
labels tie for the maximum it prefers positive over negative over neutral:
negative can only win when positive has strictly fewer votes, and neutral
only when both others have strictly fewer. -/
theorem combineSentiments_majority_tiebreak (s1 s2 s3 : Sent) :
    ([s1, s2, s3].count (combineSentiments [s1, s2, s3]).sentiment =
        max ([s1, s2, s3].count Sent.positive)
          (max ([s1, s2, s3].count Sent.negative) ([s1, s2, s3].count Sent.neutral))) ∧
    (combineSentiments [s1, s2, s3]).confidence =
      (([s1, s2, s3].count (combineSentiments [s1, s2, s3]).sentiment : ℚ)) / 3 ∧
    ((combineSentiments [s1, s2, s3]).sentiment = Sent.negative →
      [s1, s2, s3].count Sent.positive < [s1, s2, s3].count Sent.negative) ∧
    ((combineSentiments [s1, s2, s3]).sentiment = Sent.neutral →
      [s1, s2, s3].count Sent.positive < [s1, s2, s3].count Sent.neutral ∧
      [s1, s2, s3].count Sent.negative < [s1, s2, s3].count Sent.neutral) := by
  cases s1 <;> cases s2 <;> cases s3 <;> with_unfolding_all decide

/-- C4 counterexample: the classifier maps the empty string to a neutral,
general classification of confidence 100, not confidence 0 as claimed. -/
theorem classify_empty_confidence_cex :
    analyzeSentiment "" =
      { sentiment := Sent.neutral, emotion := "neutral", intent := "general", confidence := 100 } ∧
    (100 : ℚ) ≠ 0 := by
  with_unfolding_all decide

/-- C6 counterexample: on the input anxious and sad, the emotions anxiety
and depression tie at the maximal keyword count 1, yet detectEmotion returns
depression, the one declared later, not the first-declared anxiety. -/
theorem detectEmotion_tie_cex :
    categoryScores emotionKeywords "anxious and sad" =
      [("anxiety", 1), ("depression", 1), ("anger", 0),
       ("happiness", 0), ("loneliness", 0), ("suicidal", 0)] ∧
    detectEmotion "anxious and sad" = "depression" ∧ "depression" ≠ "anxiety" := by
  decide

/-- C7 counterexample: on the empty message list the aggregator does not
return any trend record (so in particular none with empty distributions and
message count 0); it returns the null sentinel. -/
theorem aggregate_empty_not_trend_cex :
    ¬ ∃ t, analyzeConversationHistory [] = AggOutcome.trend t := by
  intro ⟨t, ht⟩
  exact AggOutcome.noConfusion ht

/-- C7 amended: the aggregator applied to the empty message list returns the
explicit null sentinel rather than failing. -/
theorem aggregate_empty_null :
    analyzeConversationHistory [] = AggOutcome.nullResult := rfl

/-- C8: a well-formed nonempty message list holding only bot-authored
entries makes the aggregator throw (getDominant reduces an empty entry list
with no initial value, a TypeError), contradicting the totality claim. -/
theorem aggregate_bot_only_throws :
    analyzeConversationHistory [{ sender_type := "bot", content := "hello" }] =
      AggOutcome.jsError := rfl

/-- C9 counterexample: the classifier maps I am happy and grateful to intent
gratitude (the keyword grateful belongs to the gratitude intent lexicon),
not to intent general as claimed. -/
theorem classify_happy_grateful_intent_cex :
    (analyzeSentiment "I am happy and grateful").intent = "gratitude" ∧
    "gratitude" ≠ "general" := by
  with_unfolding_all decide

/-- C9 amended: for I am happy and grateful the classifier returns sentiment
positive, emotion happiness, intent gratitude, and positive confidence. -/
theorem classify_happy_grateful_value :
    (analyzeSentiment "I am happy and grateful").sentiment = Sent.positive ∧
    (analyzeSentiment "I am happy and grateful").emotion = "happiness" ∧
    (analyzeSentiment "I am happy and grateful").intent = "gratitude" ∧
    0 < (analyzeSentiment "I am happy and grateful").confidence := by
  with_unfolding_all decide

/-- Helper: on three scorer votes the combined confidence lies between one
third and one (the winning label always has between 1 and 3 of the 3
votes). -/
theorem combine3_conf_bounds (s1 s2 s3 : Sent) :
    1/3 ≤ (combineSentiments [s1, s2, s3]).confidence ∧
      (combineSentiments [s1, s2, s3]).confidence ≤ 1 := by
  cases s1 <;> cases s2 <;> cases s3 <;> with_unfolding_all decide

/-- Helper: the calibrator keeps a nonnegative input confidence inside the
interval 0..100 (every boost is nonnegative and the result is capped at
100). -/
theorem calculateConfidence_bounds (c : CombinedSentiment) (e i : String)
    (h : 0 ≤ c.confidence) :
    0 ≤ calculateConfidence c e i ∧ calculateConfidence c e i ≤ 100 := by
  simp only [calculateConfidence]
  constructor
  · split_ifs <;> exact le_min (by linarith) (by norm_num)
  · split_ifs <;> exact min_le_right _ _

/-- Helper: from a combined confidence of at least one third the calibrator
returns at least 100/3. -/
theorem calculateConfidence_lower (c : CombinedSentiment) (e i : String)
    (h : 1/3 ≤ c.confidence) :
    100/3 ≤ calculateConfidence c e i := by
  simp only [calculateConfidence]
  split_ifs <;> exact le_min (by linarith) (by norm_num)

/-- C3: for every input text the classifier confidence lies in the interval
0..100. -/
theorem classify_confidence_in_range (text : String) :
    0 ≤ (analyzeSentiment text).confidence ∧ (analyzeSentiment text).confidence ≤ 100 := by
  have hcomb := combine3_conf_bounds (vaderSentiment (cleanText text)).sentiment
      (keywordSentiment (cleanText text)).sentiment (patternSentiment (cleanText text)).sentiment
  have hmain := calculateConfidence_bounds
      (combineSentiments [(vaderSentiment (cleanText text)).sentiment,
        (keywordSentiment (cleanText text)).sentiment, (patternSentiment (cleanText text)).sentiment])
      (detectEmotion (cleanText text)) (detectIntent (cleanText text)) (by linarith [hcomb.1])
  simpa [analyzeSentiment] using hmain

/-- C10: for every input text the classifier confidence is at least 100/3
(the winning sentiment always has at least one of the three votes and the
calibrator only adds nonnegative boosts before capping at 100), so it is in
particular never 0. -/
theorem classify_confidence_lower_bound (text : String) :
    100/3 ≤ (analyzeSentiment text).confidence ∧ (analyzeSentiment text).confidence ≠ 0 := by
  have hcomb := combine3_conf_bounds (vaderSentiment (cleanText text)).sentiment
      (keywordSentiment (cleanText text)).sentiment (patternSentiment (cleanText text)).sentiment
  have hmain := calculateConfidence_lower
      (combineSentiments [(vaderSentiment (cleanText text)).sentiment,
        (keywordSentiment (cleanText text)).sentiment, (patternSentiment (cleanText text)).sentiment])
      (detectEmotion (cleanText text)) (detectIntent (cleanText text)) hcomb.1
  have h1 : 100/3 ≤ (analyzeSentiment text).confidence := by
    simpa [analyzeSentiment] using hmain
  refine ⟨h1, fun h0 => ?_⟩
  rw [h0] at h1
  linarith

/-- Helper: lowercasing fixes every whitespace character. -/
theorem toLower_fixes_space {c : Char} (h : isJsSpace c = true) : Char.toLower c = c := by
  have hall : ∀ x ∈ jsSpaceChars, Char.toLower x = x := by decide
  exact hall c (by simpa [isJsSpace, List.elem_iff] using h)

/-- Helper: whitespace characters survive the letter-or-space filter. -/
theorem keepChar_space {c : Char} (h : isJsSpace c = true) : keepChar c = true := by
  simp [keepChar, h]

/-- Helper: lowercasing then filtering keeps an all-whitespace character
list unchanged. -/
theorem filter_map_ws : ∀ l : List Char, l.all isJsSpace = true →
    (l.map Char.toLower).filter keepChar = l := by
  intro l
  induction l with
  | nil => intro _; rfl
  | cons c cs ih =>
    intro hl
    rw [List.all_cons, Bool.and_eq_true] at hl
    rw [List.map_cons, List.filter_cons, toLower_fixes_space hl.1]
    simp [keepChar_space hl.1, ih hl.2]

/-- Helper: inside a whitespace run, the collapse step deletes the whole
remaining all-whitespace list. -/
theorem collapse_true_ws : ∀ l : List Char, l.all isJsSpace = true →
    collapseWsAux true l = [] := by
  intro l
  induction l with
  | nil => intro _; rfl
  | cons c cs ih =>
    intro hl
    rw [List.all_cons, Bool.and_eq_true] at hl
    simp [collapseWsAux, hl.1, ih hl.2]

/-- Helper: cleanText maps every all-whitespace string (the empty string
included) to the empty string. -/
theorem cleanText_ws (s : String) (h : s.data.all isJsSpace = true) : cleanText s = "" := by
  obtain ⟨l⟩ := s
  unfold cleanText
  rw [filter_map_ws l h]
  cases l with
  | nil => rfl
  | cons c cs =>
    rw [List.all_cons, Bool.and_eq_true] at h
    simp only [collapseWsAux, h.1, if_true, collapse_true_ws cs h.2]
    decide

/-- C4 amended: the classifier is total and maps every empty or
whitespace-only input to sentiment neutral, emotion neutral, intent general,
and confidence 100 (not 0: all three scorers vote neutral, so the combined
confidence is 1 and the calibrator scales it to 100). -/
theorem classify_whitespace_value (s : String) (h : s.data.all isJsSpace = true) :
    analyzeSentiment s =
      { sentiment := Sent.neutral, emotion := "neutral", intent := "general",
        confidence := 100 } := by
  have hc : cleanText s = "" := cleanText_ws s h
  simp only [analyzeSentiment, hc]
  with_unfolding_all decide

/-- C4 witness: the whitespace-only string of a space, a tab and a newline
satisfies the hypothesis and yields the stated neutral classification. -/
theorem classify_whitespace_value_witness :
    (" \t\n".data.all isJsSpace = true) ∧
      analyzeSentiment " \t\n" =
        { sentiment := Sent.neutral, emotion := "neutral", intent := "general",
          confidence := 100 } :=
  ⟨by decide, classify_whitespace_value " \t\n" (by decide)⟩

/-- Helper: maxScore unfolds on a cons cell. -/
theorem maxScore_cons (x : String × Nat) (l : List (String × Nat)) :
    maxScore (x :: l) = max x.2 (maxScore l) := rfl

/-- Helper: the source reduce over a nonempty entry list returns exactly the
last entry attaining the maximal score (ties replace the accumulator). -/
theorem pickFold_last_max : ∀ (xs : List (String × Nat)) (x : String × Nat),
    ((x :: xs).filter (fun p => p.2 == maxScore (x :: xs))).getLast? =
      some (pickFold x xs) := by
  intro xs
  induction xs with
  | nil =>
    intro x
    simp [pickFold, maxScore]
  | cons y ys ih =>
    intro x
    have hfold : pickFold x (y :: ys) = pickFold (if x.2 > y.2 then x else y) ys := by
      by_cases h : x.2 > y.2 <;> simp [pickFold, List.foldl_cons, h]
    have hm : maxScore ((if x.2 > y.2 then x else y) :: ys) = maxScore (x :: y :: ys) := by
      by_cases h : x.2 > y.2 <;> simp [h, maxScore_cons] <;> omega
    rw [hfold, ← ih (if x.2 > y.2 then x else y), hm]
    by_cases h : x.2 > y.2
    · have hy : (y.2 == maxScore (x :: y :: ys)) = false := by
        have h1 : x.2 ≤ maxScore (x :: y :: ys) := by
          rw [maxScore_cons]; omega
        have h2 : y.2 ≠ maxScore (x :: y :: ys) := by omega
        simpa using h2
      rw [if_pos h]
      simp only [List.filter_cons, hy]
      simp
    · rw [if_neg h]
      push_neg at h
      by_cases hx : x.2 = maxScore (x :: y :: ys)
      · have hyl : y.2 ≤ maxScore (x :: y :: ys) := by
          rw [maxScore_cons, maxScore_cons]; omega
        have hy : y.2 = maxScore (x :: y :: ys) := by omega
        have hxb : (x.2 == maxScore (x :: y :: ys)) = true := by simpa using hx
        have hyb : (y.2 == maxScore (x :: y :: ys)) = true := by simpa using hy
        simp only [List.filter_cons, hxb, hyb, if_true]
        exact List.getLast?_cons_cons
      · have hxb : (x.2 == maxScore (x :: y :: ys)) = false := by simpa using hx
        simp only [List.filter_cons, hxb]
        simp

/-- Helper: the detector body equals the specification-side selector that
takes the last category among those sharing the maximal positive score. -/
theorem pickBest_eq_lastMax (scores : List (String × Nat)) (dflt : String) :
    pickBest scores dflt = lastMaxCategory scores dflt := by
  simp only [pickBest, lastMaxCategory]
  cases h : scores.filter (fun p => decide (0 < p.2)) with
  | nil => simp
  | cons x xs => simp [pickFold_last_max xs x]

/-- C6 amended: on ties for the maximal keyword count the emotion and intent
detectors return the category declared last (not first) among those
attaining the maximum, in lexicon enumeration order; the defaults apply when
no category scores positively. -/
theorem detect_tiebreak_last_declared (text : String) :
    detectEmotion text = lastMaxCategory (categoryScores emotionKeywords text) "neutral" ∧
    detectIntent text = lastMaxCategory (categoryScores intentKeywords text) "general" :=
  ⟨pickBest_eq_lastMax _ _, pickBest_eq_lastMax _ _⟩
